import Mathlib

/-!
Shallow embedding of the gh-pr-check repository (src/index.js,
src/github-pr-monitor.js, src/unnamed/part_000).

The three JavaScript entry points share a status classifier, a snapshot
aggregator (`checkAllChecksStatus`) and a polling monitor loop
(`monitorAllChecksStatus`).  The variants differ in two places:
  * on a poll error, index.js and part_000 retry after 20 seconds, while
    github-pr-monitor.js calls `process.exit(1)`;
  * after the terminal notification, github-pr-monitor.js keeps sending
    repeat notifications every 20 seconds (`startContinuousNotifications`),
    while the other two variants stop.
Both behaviours are embedded (`monitorFrom` for index.js/part_000,
`monitorFromGH` for github-pr-monitor.js).
-/

namespace GhPrCheck

/-- ASCII lowercasing of a string, character by character: the model of
JavaScript's `status.toLowerCase()` on the ASCII state strings this
program compares against. -/
def lower (s : String) : String := ⟨s.data.map Char.toLower⟩

/-- One CI check as returned by `gh pr checks --json name,state,description,link`.
Fields are optional because the JSON may omit them (`check.state || "unknown"`
in the source guards against that). -/
structure Check where
  name : Option String
  state : Option String
  description : Option String := none
  link : Option String := none
deriving DecidableEq, Repr

/-- Model of `const status = check.state || "unknown"`; in JavaScript both
a missing field and the empty string are falsy. -/
def statusOf (check : Check) : String :=
  match check.state with
  | none => "unknown"
  | some s => if s = "" then "unknown" else s

/-- Model of `const context = check.name || "Unknown Check"`. -/
def nameOf (check : Check) : String :=
  match check.name with
  | none => "Unknown Check"
  | some s => if s = "" then "Unknown Check" else s

/-- The three-way classification used by the categorisation chain in
`checkAllChecksStatus`, plus the implicit fourth outcome for states that
match none of the three membership tests. -/
inductive Classification where
  | Pending
  | Success
  | Failure
  | Unknown
deriving DecidableEq, Repr

/-- The categorisation chain of `checkAllChecksStatus` (lines 96-106 of
index.js), in source order: pending states first, then failure states,
then success states, anything else untouched. -/
def classify (rawState : String) : Classification :=
  if ["pending", "in_progress"].contains (lower rawState) then .Pending
  else if ["failure", "failed", "cancelled"].contains (lower rawState) then .Failure
  else if ["success", "completed"].contains (lower rawState) then .Success
  else .Unknown

/-- Embedding of `getStatusEmoji` (lines 6-22 of index.js): the switch on
`status.toLowerCase()`, in source order. -/
def getStatusEmoji (status : String) : String :=
  let s := lower status
  if s = "success" ∨ s = "completed" then "✅"
  else if s = "failure" ∨ s = "failed" then "❌"
  else if s = "pending" ∨ s = "in_progress" then "🟡"
  else if s = "cancelled" then "⚪"
  else "❓"

/-- The five mutable accumulators of the `checks.forEach` loop in
`checkAllChecksStatus`. -/
structure AggState where
  allCompleted : Bool
  hasFailures : Bool
  pendingChecks : List String
  completedChecks : List String
  failedChecks : List String
deriving DecidableEq, Repr

/-- Initial accumulator values (lines 63-67 of index.js). -/
def initAggState : AggState :=
  { allCompleted := true, hasFailures := false,
    pendingChecks := [], completedChecks := [], failedChecks := [] }

/-- One iteration of the `checks.forEach` categorisation (lines 74-107 of
index.js); `push` appends at the end. -/
def categorize (st : AggState) (check : Check) : AggState :=
  let context := nameOf check
  match classify (statusOf check) with
  | .Pending =>
      { st with allCompleted := false, pendingChecks := st.pendingChecks ++ [context] }
  | .Failure =>
      { st with hasFailures := true, failedChecks := st.failedChecks ++ [context] }
  | .Success =>
      { st with completedChecks := st.completedChecks ++ [context] }
  | .Unknown => st

/-- The `summary` field of the result object. -/
structure Summary where
  total : Nat
  pending : List String
  completed : List String
  failed : List String
deriving DecidableEq, Repr

/-- The result object returned by `checkAllChecksStatus` on the non-error
path (lines 109-120 of index.js). -/
structure CheckResult where
  completed : Bool
  hasFailures : Bool
  checks : List Check
  prNumber : String
  summary : Summary
deriving DecidableEq, Repr

/-- The distinguishable `return { error: true }` branches of
`checkAllChecksStatus`; the JavaScript collapses them all into one opaque
error marker, the spec names them. -/
inductive RunError where
  | NoUrl
  | InvalidReference
  | FetchError
  | EmptyCheckSet
deriving DecidableEq, Repr

/-- The aggregation part of `checkAllChecksStatus`: the empty-check-set
guard (lines 56-61) followed by the categorisation loop and the result
object (lines 63-120). -/
def checkAgg (prNumber : String) (checks : List Check) : Except RunError CheckResult :=
  if checks.length = 0 then .error .EmptyCheckSet
  else
    let st := checks.foldl categorize initAggState
    .ok { completed := st.allCompleted,
          hasFailures := st.hasFailures,
          checks := checks,
          prNumber := prNumber,
          summary := { total := checks.length,
                       pending := st.pendingChecks,
                       completed := st.completedChecks,
                       failed := st.failedChecks } }

/-- Scan of a character list for the regex `/\/pull\/(\d+)/`: the first
position where the literal `/pull/` is followed by at least one digit
yields the maximal digit run as the capture. -/
def prNumberFrom : List Char → Option String
  | [] => none
  | c :: rest =>
    if "/pull/".data.isPrefixOf (c :: rest) then
      let ds := ((c :: rest).drop 6).takeWhile Char.isDigit
      if ds.isEmpty then prNumberFrom rest else some ⟨ds⟩
    else prNumberFrom rest

/-- Model of `prUrl.match(/\/pull\/(\d+)/)` returning capture group 1
(line 36 of index.js). -/
def extractPRNumber (url : String) : Option String := prNumberFrom url.data

/-- Outcome of the `gh pr checks` fetch (the `execSync` call): either the
parsed check list, or a thrown error that the surrounding `try` catches. -/
inductive FetchOutcome where
  | failure
  | success (checks : List Check)
deriving DecidableEq, Repr

/-- The full `checkAllChecksStatus` pipeline of index.js: missing URL,
unparsable URL, fetch failure and the empty check set all return the
error marker; otherwise the aggregation result is returned.  (In
github-pr-monitor.js the missing-URL branch goes interactive instead; the
other branches are identical.) -/
def checkAllChecksStatusRun (prUrl : Option String) (fetch : FetchOutcome) :
    Except RunError CheckResult :=
  match prUrl with
  | none => .error .NoUrl
  | some url =>
    match extractPRNumber url with
    | none => .error .InvalidReference
    | some prNumber =>
      match fetch with
      | .failure => .error .FetchError
      | .success checks => checkAgg prNumber checks

/-- In single mode (`--single`) every variant just runs
`checkAllChecksStatus` and lets the process terminate normally: the error
marker is returned, not thrown, so neither `main().catch` nor any other
`process.exit(1)` path fires, and the process exit code is 0 on every
outcome (index.js lines 227-229, github-pr-monitor.js lines 449-462). -/
def singleModeExitCode (prUrl : Option String) (fetch : FetchOutcome) : Nat :=
  match checkAllChecksStatusRun prUrl fetch with
  | .error _ => 0
  | .ok _ => 0

/-- Embedding of `formatDuration` (lines 141-151 of index.js); times are
epoch milliseconds with `endTime ≥ startTime` on every real run. -/
def formatDuration (startTime endTime : Nat) : String :=
  let durationMs := endTime - startTime
  let minutes := durationMs / 60000
  let seconds := durationMs % 60000 / 1000
  if minutes > 0 then
    toString minutes ++ "m " ++ toString seconds ++ "s"
  else
    toString seconds ++ "s"

/-- One call to `sendNotification(message, type)`: the argument pair of the
notification-collaborator call; `type` is the JavaScript tag string
("success", "failure" or, in github-pr-monitor.js, "repeat"). -/
structure Notification where
  message : String
  type : String
deriving DecidableEq, Repr

/-- Observable events of one monitor run: a fetch (`checkAllChecksStatus`
call), a `setTimeout` suspension in milliseconds, a notification-collaborator
call, or `process.exit`. -/
inductive Event where
  | poll : Event
  | wait : Nat → Event
  | notify : Notification → Event
  | exitProc : Nat → Event
deriving DecidableEq, Repr

/-- The terminal success message (line 196 of index.js). -/
def successMessage (prNumber duration : String) : String :=
  "All checks completed successfully for PR #" ++ prNumber ++
    "\nCompleted in " ++ duration

/-- The terminal failure message (line 188 of index.js). -/
def failureMessage (prNumber duration : String) : String :=
  "All checks completed with failures for PR #" ++ prNumber ++
    "\nCompleted in " ++ duration

/-- The monitor loop of index.js (lines 163-217) and part_000 (lines
246-300), which are textually identical.  The loop is driven by the finite
list of fetch outcomes observed during the run, each paired with the
millisecond clock reading `new Date()` at that iteration; an empty list
models external interruption of the still-running loop.  An error poll
logs and retries after 20000 ms; a non-completed snapshot prints progress
and retries after 20000 ms; a completed snapshot notifies once and breaks. -/
def monitorFrom (startTime : Nat) :
    List (Nat × Except RunError CheckResult) → List Event
  | [] => []
  | (now, res) :: rest =>
    Event.poll ::
      match res with
      | .error _ => Event.wait 20000 :: monitorFrom startTime rest
      | .ok result =>
        if result.completed then
          let duration := formatDuration startTime now
          if result.hasFailures then
            [Event.notify ⟨failureMessage result.prNumber duration, "failure"⟩]
          else
            [Event.notify ⟨successMessage result.prNumber duration, "success"⟩]
        else
          Event.wait 20000 :: monitorFrom startTime rest

/-- The body of one `startContinuousNotifications` iteration's message
(lines 306-314 of github-pr-monitor.js). -/
def continuousMessage (result : CheckResult) (completionDuration completionType : String) :
    String :=
  let base :=
    if completionType = "success" then
      "All checks completed successfully for PR #" ++ result.prNumber
    else
      "All checks completed with failures for PR #" ++ result.prNumber
  let m := base ++ "\nCompleted in " ++ completionDuration
  if result.summary.failed.length > 0 then
    m ++ "\n❌ Failed: " ++ String.intercalate ", " result.summary.failed
  else m

/-- Embedding of `startContinuousNotifications` (lines 293-320 of
github-pr-monitor.js): an unbounded repeat-notification loop, stopped only
by killing the process; the fuel argument is the number of iterations
observed before the external interruption. -/
def startContinuousNotifications (result : CheckResult)
    (completionDuration completionType : String) : Nat → List Event
  | 0 => []
  | n + 1 =>
    Event.notify ⟨continuousMessage result completionDuration completionType, "repeat"⟩ ::
      Event.wait 20000 ::
        startContinuousNotifications result completionDuration completionType n

/-- The monitor loop of github-pr-monitor.js (lines 322-404).  It differs
from `monitorFrom` in exactly two places: a poll error calls
`process.exit(1)` instead of retrying (lines 340-342), and after the
terminal notification it enters `startContinuousNotifications` instead of
breaking (lines 357-386). -/
def monitorFromGH (startTime repeatFuel : Nat) :
    List (Nat × Except RunError CheckResult) → List Event
  | [] => []
  | (now, res) :: rest =>
    Event.poll ::
      match res with
      | .error _ => [Event.exitProc 1]
      | .ok result =>
        if result.completed then
          let duration := formatDuration startTime now
          if result.hasFailures then
            Event.notify ⟨failureMessage result.prNumber duration, "failure"⟩ ::
              startContinuousNotifications result duration "failure" repeatFuel
          else
            Event.notify ⟨successMessage result.prNumber duration, "success"⟩ ::
              startContinuousNotifications result duration "success" repeatFuel
        else
          Event.wait 20000 :: monitorFromGH startTime repeatFuel rest

/-- A poll outcome that keeps the index.js loop polling because the
snapshot is not yet complete: a successful fetch whose aggregate has
`completed = false`. -/
def pollInProgress (p : Nat × Except RunError CheckResult) : Bool :=
  match p.2 with
  | .ok r => !r.completed
  | .error _ => false

/-- Predicate selecting fetch events in a trace. -/
def isPollEvent : Event → Bool
  | .poll => true
  | _ => false

/-- Predicate selecting suspension events in a trace. -/
def isWaitEvent : Event → Bool
  | .wait _ => true
  | _ => false

/-- Predicate selecting notification-collaborator calls in a trace. -/
def isNotifyEvent : Event → Bool
  | .notify _ => true
  | _ => false

/-- Predicate selecting notification calls tagged with a terminal outcome
kind ("success" or "failure", as opposed to "repeat"). -/
def isOutcomeNotification : Event → Bool
  | .notify n => n.type == "success" || n.type == "failure"
  | _ => false

/-- A check whose (defaulted) state classifies as pending. -/
def isPendingCheck (c : Check) : Bool := decide (classify (statusOf c) = .Pending)

/-- A check whose (defaulted) state classifies as a completed failure. -/
def isFailureCheck (c : Check) : Bool := decide (classify (statusOf c) = .Failure)

/-- A check whose (defaulted) state classifies as a completed success. -/
def isSuccessCheck (c : Check) : Bool := decide (classify (statusOf c) = .Success)

/-- Closed form of the `forEach` accumulation: each bucket is the ordered,
name-projected filter of the input, `allCompleted` holds while no pending
check is seen, `hasFailures` once a failure-classified check is seen. -/
theorem foldl_categorize (checks : List Check) (st : AggState) :
    checks.foldl categorize st =
      { allCompleted := st.allCompleted && checks.all (fun c => !isPendingCheck c),
        hasFailures := st.hasFailures || checks.any isFailureCheck,
        pendingChecks := st.pendingChecks ++ (checks.filter isPendingCheck).map nameOf,
        completedChecks := st.completedChecks ++ (checks.filter isSuccessCheck).map nameOf,
        failedChecks := st.failedChecks ++ (checks.filter isFailureCheck).map nameOf } := by
  induction checks generalizing st with
  | nil => simp
  | cons c cs ih =>
    rw [List.foldl_cons, ih]
    cases h : classify (statusOf c) <;>
      simp [categorize, h, isPendingCheck, isFailureCheck, isSuccessCheck,
        List.filter_cons, Bool.and_assoc, Bool.or_assoc]

/-- Closed form of `checkAgg` on a non-empty check list. -/
theorem checkAgg_eq (p : String) (cs : List Check) (h : cs ≠ []) :
    checkAgg p cs = .ok
      { completed := cs.all (fun c => !isPendingCheck c),
        hasFailures := cs.any isFailureCheck,
        checks := cs,
        prNumber := p,
        summary := { total := cs.length,
                     pending := (cs.filter isPendingCheck).map nameOf,
                     completed := (cs.filter isSuccessCheck).map nameOf,
                     failed := (cs.filter isFailureCheck).map nameOf } } := by
  unfold checkAgg
  rw [if_neg (by simpa using h), foldl_categorize]
  simp [initAggState]

/-- C4: the classifier is a pure function of its input string that is
case-insensitive (inputs with equal lowercasings classify equally) and
maps "success" and "completed" to `Success`, "failure", "failed" and
"cancelled" to `Failure`, and "pending" and "in_progress" to `Pending`. -/
theorem classify_case_insensitive_table (s t : String) (h : lower s = lower t) :
    classify s = classify t ∧
    classify "success" = .Success ∧ classify "completed" = .Success ∧
    classify "failure" = .Failure ∧ classify "failed" = .Failure ∧
    classify "cancelled" = .Failure ∧
    classify "pending" = .Pending ∧ classify "in_progress" = .Pending := by
  refine ⟨?_, rfl, rfl, rfl, rfl, rfl, rfl, rfl⟩
  unfold classify
  rw [h]

/-- Witness for C4 at a concrete mixed-case input. -/
theorem classify_case_insensitive_table_witness :
    lower "SuCcEsS" = lower "success" ∧ classify "SuCcEsS" = classify "success" :=
  ⟨by decide, (classify_case_insensitive_table "SuCcEsS" "success" (by decide)).1⟩

/-- C6: applied to the empty check sequence the aggregator fails with the
`EmptyCheckSet` error rather than returning a snapshot, and on every
non-empty sequence it returns a snapshot, never an error. -/
theorem aggregate_empty_check_set (p : String) (cs : List Check) (e : RunError)
    (h : cs ≠ []) :
    checkAgg p [] = .error .EmptyCheckSet ∧ checkAgg p cs ≠ .error e := by
  refine ⟨rfl, ?_⟩
  rw [checkAgg_eq p cs h]
  simp

/-- Witness for C6 at a concrete one-element check list. -/
theorem aggregate_empty_check_set_witness :
    ([(⟨some "build", some "success", none, none⟩ : Check)] ≠ []) ∧
      checkAgg "7" [⟨some "build", some "success", none, none⟩] ≠
        .error RunError.EmptyCheckSet :=
  ⟨by decide,
   (aggregate_empty_check_set "7" [⟨some "build", some "success", none, none⟩]
      RunError.EmptyCheckSet (by decide)).2⟩

/-- C8 counterexample: "cancelled" classifies as `Failure` but receives the
glyph "⚪", not the failure glyph "❌" that "failure" receives, so the
glyph table does not follow the classifier's three-way partition. -/
theorem glyph_cancelled_counterexample :
    classify "cancelled" = .Failure ∧ classify "failure" = .Failure ∧
    getStatusEmoji "failure" = "❌" ∧ getStatusEmoji "cancelled" = "⚪" ∧
    getStatusEmoji "cancelled" ≠ getStatusEmoji "failure" :=
  ⟨rfl, rfl, rfl, rfl, by decide⟩

/-- Complete characterisation of the glyph switch: for every input string,
each of the five glyphs is returned exactly for the lowercased states of
its own switch case, and the default glyph exactly for every string whose
lowercasing is outside the table. -/
theorem getStatusEmoji_cases (u : String) :
    (getStatusEmoji u = "✅" ↔ lower u = "success" ∨ lower u = "completed") ∧
    (getStatusEmoji u = "❌" ↔ lower u = "failure" ∨ lower u = "failed") ∧
    (getStatusEmoji u = "🟡" ↔ lower u = "pending" ∨ lower u = "in_progress") ∧
    (getStatusEmoji u = "⚪" ↔ lower u = "cancelled") ∧
    (getStatusEmoji u = "❓" ↔
      ¬(lower u = "success" ∨ lower u = "completed" ∨ lower u = "failure" ∨
        lower u = "failed" ∨ lower u = "pending" ∨ lower u = "in_progress" ∨
        lower u = "cancelled")) := by
  simp only [getStatusEmoji]
  split_ifs with h1 h2 h3 h4
  · rcases h1 with h1 | h1 <;> rw [h1] <;> decide
  · rcases h2 with h2 | h2 <;> rw [h2] <;> decide
  · rcases h3 with h3 | h3 <;> rw [h3] <;> decide
  · rw [h4]; decide
  · refine ⟨iff_of_false (by decide) h1, iff_of_false (by decide) h2,
      iff_of_false (by decide) h3, iff_of_false (by decide) h4,
      iff_of_true rfl ?_⟩
    rintro (hx | hx | hx | hx | hx | hx | hx)
    · exact h1 (Or.inl hx)
    · exact h1 (Or.inr hx)
    · exact h2 (Or.inl hx)
    · exact h2 (Or.inr hx)
    · exact h3 (Or.inl hx)
    · exact h3 (Or.inr hx)
    · exact h4 hx

/-- C8 amended: the glyph function is case-insensitive and assigns the
success glyph exactly to "success" and "completed", the failure glyph to
"failure" and "failed" only, the pending glyph exactly to "pending" and
"in_progress", a distinct glyph exactly to "cancelled" (although
"cancelled" classifies as `Failure`), and one default glyph to every other
string. -/
theorem glyph_table_amended (s t : String) (h : lower s = lower t) :
    getStatusEmoji s = getStatusEmoji t ∧
    (getStatusEmoji s = "✅" ↔ lower s = "success" ∨ lower s = "completed") ∧
    (getStatusEmoji s = "❌" ↔ lower s = "failure" ∨ lower s = "failed") ∧
    (getStatusEmoji s = "🟡" ↔ lower s = "pending" ∨ lower s = "in_progress") ∧
    (getStatusEmoji s = "⚪" ↔ lower s = "cancelled") ∧
    (getStatusEmoji s = "❓" ↔
      ¬(lower s = "success" ∨ lower s = "completed" ∨ lower s = "failure" ∨
        lower s = "failed" ∨ lower s = "pending" ∨ lower s = "in_progress" ∨
        lower s = "cancelled")) ∧
    classify "cancelled" = .Failure := by
  obtain ⟨g1, g2, g3, g4, g5⟩ := getStatusEmoji_cases s
  refine ⟨?_, g1, g2, g3, g4, g5, rfl⟩
  unfold getStatusEmoji
  rw [h]

/-- Witness for the amended C8 at a concrete mixed-case input. -/
theorem glyph_table_amended_witness :
    lower "CANCELLED" = lower "cancelled" ∧
      getStatusEmoji "CANCELLED" = getStatusEmoji "cancelled" :=
  ⟨by decide, (glyph_table_amended "CANCELLED" "cancelled" (by decide)).1⟩

/-- On a list whose states all classify into one of the three buckets, the
three bucket filters partition the list. -/
theorem filter_partition_length (cs : List Check)
    (hknown : ∀ c ∈ cs, classify (statusOf c) ≠ .Unknown) :
    (cs.filter isPendingCheck).length + (cs.filter isSuccessCheck).length +
      (cs.filter isFailureCheck).length = cs.length := by
  induction cs with
  | nil => simp
  | cons c cs ih =>
    have hc := hknown c (List.mem_cons_self c cs)
    have ih2 := ih fun x hx => hknown x (List.mem_cons_of_mem c hx)
    cases h : classify (statusOf c) with
    | Unknown => exact absurd h hc
    | Pending =>
        simp only [List.filter_cons, isPendingCheck, isSuccessCheck, isFailureCheck, h,
          List.length_cons]
        simp only [decide_eq_true_eq]
        simp
        omega
    | Success =>
        simp only [List.filter_cons, isPendingCheck, isSuccessCheck, isFailureCheck, h,
          List.length_cons]
        simp only [decide_eq_true_eq]
        simp
        omega
    | Failure =>
        simp only [List.filter_cons, isPendingCheck, isSuccessCheck, isFailureCheck, h,
          List.length_cons]
        simp only [decide_eq_true_eq]
        simp
        omega

/-- C1 counterexample: a single check whose raw state "neutral" is outside
the documented state table is counted in `total` but lands in no bucket,
so the bucket lengths sum to 0 while `total` is 1. -/
theorem partition_sum_counterexample :
    (checkAgg "1" [⟨some "build", some "neutral", none, none⟩]).map
        (fun r => (r.summary.total,
          r.summary.pending.length + r.summary.completed.length +
            r.summary.failed.length)) = .ok (1, 0) ∧ (0 : Nat) ≠ 1 :=
  ⟨rfl, by decide⟩

/-- C1 amended: for every non-empty check list whose raw states (after the
"unknown" default) all lie in the documented state table, the three bucket
lengths sum to `total`, and `total` is the input length; checks with
states outside the table are counted in `total` but excluded from every
bucket. -/
theorem partition_sum_amended (p : String) (cs : List Check) (r : CheckResult)
    (hne : cs ≠ []) (hknown : ∀ c ∈ cs, classify (statusOf c) ≠ .Unknown)
    (hr : checkAgg p cs = .ok r) :
    r.summary.pending.length + r.summary.completed.length +
        r.summary.failed.length = r.summary.total ∧
      r.summary.total = cs.length := by
  rw [checkAgg_eq p cs hne] at hr
  obtain rfl : r = _ := (Except.ok.inj hr).symm
  refine ⟨?_, rfl⟩
  simpa [List.length_map] using filter_partition_length cs hknown

/-- Witness for the amended C1 at a concrete one-element list. -/
theorem partition_sum_amended_witness :
    (([⟨some "a", some "success", none, none⟩] : List Check) ≠ []) ∧
      ((({ completed := true, hasFailures := false,
           checks := [⟨some "a", some "success", none, none⟩], prNumber := "9",
           summary := { total := 1, pending := [], completed := ["a"],
                        failed := [] } } : CheckResult).summary.pending.length +
          ({ completed := true, hasFailures := false,
             checks := [⟨some "a", some "success", none, none⟩], prNumber := "9",
             summary := { total := 1, pending := [], completed := ["a"],
                          failed := [] } } : CheckResult).summary.completed.length +
          ({ completed := true, hasFailures := false,
             checks := [⟨some "a", some "success", none, none⟩], prNumber := "9",
             summary := { total := 1, pending := [], completed := ["a"],
                          failed := [] } } : CheckResult).summary.failed.length =
          ({ completed := true, hasFailures := false,
             checks := [⟨some "a", some "success", none, none⟩], prNumber := "9",
             summary := { total := 1, pending := [], completed := ["a"],
                          failed := [] } } : CheckResult).summary.total) ∧
        ({ completed := true, hasFailures := false,
           checks := [⟨some "a", some "success", none, none⟩], prNumber := "9",
           summary := { total := 1, pending := [], completed := ["a"],
                        failed := [] } } : CheckResult).summary.total =
          ([⟨some "a", some "success", none, none⟩] : List Check).length) :=
  ⟨by decide,
   partition_sum_amended "9" [⟨some "a", some "success", none, none⟩] _
     (by decide) (by decide) rfl⟩

/-- C5: in every snapshot the aggregator returns for a non-empty check
list, `completed` is true iff the pending bucket is empty and
`hasFailures` is true iff the failed bucket is non-empty. -/
theorem snapshot_flags_iff (p : String) (cs : List Check) (r : CheckResult)
    (hne : cs ≠ []) (hr : checkAgg p cs = .ok r) :
    (r.completed = true ↔ r.summary.pending = []) ∧
    (r.hasFailures = true ↔ r.summary.failed ≠ []) := by
  rw [checkAgg_eq p cs hne] at hr
  obtain rfl : r = _ := (Except.ok.inj hr).symm
  constructor
  · simp [List.all_eq_true, List.map_eq_nil_iff, List.filter_eq_nil_iff]
  · simp [List.any_eq_true, List.map_eq_nil_iff, List.filter_eq_nil_iff]

/-- Witness for C5 at a concrete list with one failed and one successful
check. -/
theorem snapshot_flags_iff_witness :
    (([⟨some "a", some "failed", none, none⟩,
       ⟨some "b", some "success", none, none⟩] : List Check) ≠ []) ∧
      ((({ completed := true, hasFailures := true,
           checks := [⟨some "a", some "failed", none, none⟩,
                      ⟨some "b", some "success", none, none⟩], prNumber := "5",
           summary := { total := 2, pending := [], completed := ["b"],
                        failed := ["a"] } } : CheckResult).completed = true ↔
          ({ completed := true, hasFailures := true,
             checks := [⟨some "a", some "failed", none, none⟩,
                        ⟨some "b", some "success", none, none⟩], prNumber := "5",
             summary := { total := 2, pending := [], completed := ["b"],
                          failed := ["a"] } } : CheckResult).summary.pending = [])) :=
  ⟨by decide,
   (snapshot_flags_iff "5"
      [⟨some "a", some "failed", none, none⟩, ⟨some "b", some "success", none, none⟩]
      _ (by decide) rfl).1⟩

/-- C9: the aggregator is deterministic and idempotent (equal inputs give
structurally equal results), and each bucket is the name projection of the
order-preserving filter of the input list, so input order is preserved
within each partition. -/
theorem aggregate_deterministic_ordered (p : String) (cs cs2 : List Check)
    (r : CheckResult) (heq : cs = cs2) (hr : checkAgg p cs = .ok r) :
    checkAgg p cs = checkAgg p cs2 ∧
    r.summary.pending = (cs.filter isPendingCheck).map nameOf ∧
    r.summary.completed = (cs.filter isSuccessCheck).map nameOf ∧
    r.summary.failed = (cs.filter isFailureCheck).map nameOf := by
  subst heq
  have hne : cs ≠ [] := by
    intro hnil
    subst hnil
    simp [checkAgg] at hr
  rw [checkAgg_eq p cs hne] at hr
  obtain rfl : r = _ := (Except.ok.inj hr).symm
  exact ⟨rfl, rfl, rfl, rfl⟩

/-- Witness for C9: the completed bucket keeps the two successful checks
in input order. -/
theorem aggregate_deterministic_ordered_witness :
    ({ completed := false, hasFailures := true,
       checks := [⟨some "a", some "success", none, none⟩,
                  ⟨some "b", some "pending", none, none⟩,
                  ⟨some "c", some "failed", none, none⟩,
                  ⟨some "d", some "success", none, none⟩], prNumber := "3",
       summary := { total := 4, pending := ["b"], completed := ["a", "d"],
                    failed := ["c"] } } : CheckResult).summary.completed =
      (([⟨some "a", some "success", none, none⟩,
         ⟨some "b", some "pending", none, none⟩,
         ⟨some "c", some "failed", none, none⟩,
         ⟨some "d", some "success", none, none⟩] : List Check).filter
          isSuccessCheck).map nameOf :=
  (aggregate_deterministic_ordered "3"
    [⟨some "a", some "success", none, none⟩, ⟨some "b", some "pending", none, none⟩,
     ⟨some "c", some "failed", none, none⟩, ⟨some "d", some "success", none, none⟩]
    _ _ rfl rfl).2.2.1

/-- C10: a non-empty check list whose states all fall outside the
documented state table (including defaulted missing or empty states)
aggregates to a snapshot with `completed = true` and `hasFailures = false`,
and one poll of the monitor loop on that snapshot immediately sends the
success notification. -/
theorem all_unknown_terminal_success (p : String) (cs : List Check)
    (st now : Nat) (r : CheckResult) (hne : cs ≠ [])
    (hunk : ∀ c ∈ cs, classify (statusOf c) = .Unknown)
    (hr : checkAgg p cs = .ok r) :
    r.completed = true ∧ r.hasFailures = false ∧
    monitorFrom st [(now, .ok r)] =
      [Event.poll,
       Event.notify ⟨successMessage p (formatDuration st now), "success"⟩] := by
  rw [checkAgg_eq p cs hne] at hr
  obtain rfl : r = _ := (Except.ok.inj hr).symm
  have h1 : cs.all (fun c => !isPendingCheck c) = true := by
    simp only [List.all_eq_true]
    intro c hc
    simp [isPendingCheck, hunk c hc]
  have h2 : cs.any isFailureCheck = false := by
    simp only [List.any_eq_false]
    intro c hc
    simp [isFailureCheck, hunk c hc]
  refine ⟨h1, h2, ?_⟩
  simp [monitorFrom, h1, h2]

/-- Witness for C10 at a concrete list of one missing-state check and one
"skipped" check. -/
theorem all_unknown_terminal_success_witness :
    (([⟨some "a", none, none, none⟩,
       ⟨some "b", some "skipped", none, none⟩] : List Check) ≠ []) ∧
      ({ completed := true, hasFailures := false,
         checks := [⟨some "a", none, none, none⟩,
                    ⟨some "b", some "skipped", none, none⟩], prNumber := "4",
         summary := { total := 2, pending := [], completed := [],
                      failed := [] } } : CheckResult).completed = true :=
  ⟨by decide,
   (all_unknown_terminal_success "4"
      [⟨some "a", none, none, none⟩, ⟨some "b", some "skipped", none, none⟩]
      0 40000 _ (by decide) (by decide) rfl).1⟩

/-- C7 counterexample: with a well-formed PR URL whose fetch fails, and
with an unparsable PR reference, single mode reports the error branch yet
the process exit code is 0, not 1. -/
theorem single_mode_exit_code_counterexample :
    checkAllChecksStatusRun (some "https://github.com/o/r/pull/123") .failure =
        .error .FetchError ∧
      singleModeExitCode (some "https://github.com/o/r/pull/123") .failure = 0 ∧
      checkAllChecksStatusRun (some "https://github.com/o/r/pulls/9")
          (.success []) = .error .InvalidReference ∧
      singleModeExitCode (some "https://github.com/o/r/pulls/9") (.success []) = 0 ∧
      (0 : Nat) ≠ 1 :=
  ⟨rfl, rfl, rfl, rfl, by decide⟩

/-- C7 amended: in single mode every fetch or parse failure is caught
inside `checkAllChecksStatus` and returned as an error marker, so the
process always terminates with exit code 0; no single-mode path reaches
`process.exit(1)`. -/
theorem single_mode_exit_code_amended (prUrl : Option String)
    (fetch : FetchOutcome) : singleModeExitCode prUrl fetch = 0 := by
  unfold singleModeExitCode
  cases checkAllChecksStatusRun prUrl fetch <;> rfl

/-- C2 counterexample: in the github-pr-monitor.js variant a poll that ends
in an error halts the process with exit code 1 instead of retrying: there
is no inter-poll wait and the second scheduled poll never happens. -/
theorem monitor_error_halt_counterexample :
    monitorFromGH 0 3 [(5000, .error .FetchError), (25000, .error .FetchError)] =
        [Event.poll, Event.exitProc 1] ∧
      (monitorFromGH 0 3
          [(5000, .error .FetchError), (25000, .error .FetchError)]).countP
          isWaitEvent = 0 ∧
      (monitorFromGH 0 3
          [(5000, .error .FetchError), (25000, .error .FetchError)]).countP
          isPollEvent = 1 :=
  ⟨rfl, rfl, rfl⟩

/-- C2 amended: in the index.js and part_000 variants every poll that ends
in an error (fetch failure or empty check set) is reported and retried
after the standard 20000 ms interval without halting, while in the
github-pr-monitor.js variant the same poll halts the process with exit
code 1; an empty check set is one of the error outcomes. -/
theorem monitor_error_retry_amended (st now fuel : Nat) (e : RunError)
    (rest : List (Nat × Except RunError CheckResult)) (url : String)
    (r : CheckResult) :
    monitorFrom st ((now, .error e) :: rest) =
        Event.poll :: Event.wait 20000 :: monitorFrom st rest ∧
      monitorFromGH st fuel ((now, .error e) :: rest) =
        [Event.poll, Event.exitProc 1] ∧
      checkAllChecksStatusRun (some url) (.success []) ≠ .ok r := by
  refine ⟨rfl, rfl, ?_⟩
  unfold checkAllChecksStatusRun
  cases h : extractPRNumber url with
  | none => simp [h]
  | some n => simp [h, checkAgg]

/-- The poll/wait event prefix produced by a run of in-progress polls: one
fetch and one fixed-interval suspension per poll. -/
def pollWaitBlocks : List (Nat × Except RunError CheckResult) → List Event
  | [] => []
  | _ :: rest => Event.poll :: Event.wait 20000 :: pollWaitBlocks rest

/-- A repeat-tagged notification is never tagged with a terminal outcome. -/
theorem isOutcomeNotification_repeat (m : String) :
    isOutcomeNotification (.notify ⟨m, "repeat"⟩) = false := rfl

/-- Counts of event kinds in the poll/wait prefix. -/
theorem pollWaitBlocks_counts (front : List (Nat × Except RunError CheckResult)) :
    (pollWaitBlocks front).countP isNotifyEvent = 0 ∧
    (pollWaitBlocks front).countP isOutcomeNotification = 0 ∧
    (pollWaitBlocks front).countP isPollEvent = front.length ∧
    (pollWaitBlocks front).countP isWaitEvent = front.length := by
  induction front with
  | nil => simp [pollWaitBlocks]
  | cons x xs ih =>
    obtain ⟨i1, i2, i3, i4⟩ := ih
    simp [pollWaitBlocks, List.countP_cons, isNotifyEvent, isOutcomeNotification,
      isPollEvent, isWaitEvent, i1, i2, i3, i4]

/-- Trace shape of the index.js/part_000 monitor loop on a run of
in-progress snapshots followed by a completed one: poll/wait pairs, then a
final poll and the single terminal notification, whose message embeds the
PR number and the formatted elapsed duration and whose tag is the terminal
outcome. -/
theorem monitorFrom_shape (st now : Nat)
    (front : List (Nat × Except RunError CheckResult)) (r : CheckResult)
    (hfront : front.all pollInProgress = true) (hdone : r.completed = true) :
    monitorFrom st (front ++ [(now, .ok r)]) =
      pollWaitBlocks front ++
        [Event.poll,
         Event.notify
           ⟨if r.hasFailures then failureMessage r.prNumber (formatDuration st now)
            else successMessage r.prNumber (formatDuration st now),
            if r.hasFailures then "failure" else "success"⟩] := by
  induction front with
  | nil =>
    cases hf : r.hasFailures <;>
      simp [monitorFrom, pollWaitBlocks, hdone, hf]
  | cons x xs ih =>
    obtain ⟨t, res⟩ := x
    rw [List.all_cons, Bool.and_eq_true] at hfront
    obtain ⟨h1, h2⟩ := hfront
    cases res with
    | error e => simp [pollInProgress] at h1
    | ok q =>
      have hq : q.completed = false := by
        simpa [pollInProgress] using h1
      simp only [List.cons_append, monitorFrom, hq, pollWaitBlocks,
        Bool.false_eq_true, if_false, List.append_eq, ih h2]

/-- Trace shape of the github-pr-monitor.js monitor loop on the same run:
identical up to the terminal notification, after which the loop enters the
repeat-notification phase instead of stopping. -/
theorem monitorFromGH_shape (st now fuel : Nat)
    (front : List (Nat × Except RunError CheckResult)) (r : CheckResult)
    (hfront : front.all pollInProgress = true) (hdone : r.completed = true) :
    monitorFromGH st fuel (front ++ [(now, .ok r)]) =
      pollWaitBlocks front ++
        Event.poll ::
          Event.notify
            ⟨if r.hasFailures then failureMessage r.prNumber (formatDuration st now)
             else successMessage r.prNumber (formatDuration st now),
             if r.hasFailures then "failure" else "success"⟩ ::
            startContinuousNotifications r (formatDuration st now)
              (if r.hasFailures then "failure" else "success") fuel := by
  induction front with
  | nil =>
    cases hf : r.hasFailures <;>
      simp [monitorFromGH, pollWaitBlocks, hdone, hf]
  | cons x xs ih =>
    obtain ⟨t, res⟩ := x
    rw [List.all_cons, Bool.and_eq_true] at hfront
    obtain ⟨h1, h2⟩ := hfront
    cases res with
    | error e => simp [pollInProgress] at h1
    | ok q =>
      have hq : q.completed = false := by
        simpa [pollInProgress] using h1
      simp only [List.cons_append, monitorFromGH, hq, pollWaitBlocks,
        Bool.false_eq_true, if_false, List.append_eq, ih h2]

/-- No iteration of the repeat-notification phase carries a terminal
outcome tag: every one of its notifications is tagged "repeat". -/
theorem continuous_no_outcome (r : CheckResult) (d t : String) (n : Nat) :
    (startContinuousNotifications r d t n).countP isOutcomeNotification = 0 := by
  induction n with
  | zero => simp [startContinuousNotifications]
  | succ n ih =>
    simp [startContinuousNotifications, List.countP_cons,
      isOutcomeNotification_repeat, isWaitEvent, ih]
    rfl

/-- C3: when the monitor loop is fed a run of in-progress snapshots
followed by a completed one, the trace is poll, wait, poll, wait, ...,
poll, notification: exactly one notification, tagged
`hasFailures ? "failure" : "success"`, whose message (`successMessage` or
`failureMessage` applied to the PR number and the formatted elapsed
duration) embeds the pull-request identifier and the elapsed duration;
there are exactly as many polls as snapshots consumed, with exactly one
fixed-interval wait between consecutive polls and none after the last;
and in the github-pr-monitor.js variant exactly one notification of the
whole trace carries a terminal outcome tag (the repeat phase is tagged
"repeat"). -/
theorem notify_once_at_completion (st now fuel : Nat)
    (front : List (Nat × Except RunError CheckResult)) (r : CheckResult)
    (hfront : front.all pollInProgress = true) (hdone : r.completed = true) :
    monitorFrom st (front ++ [(now, .ok r)]) =
        pollWaitBlocks front ++
          [Event.poll,
           Event.notify
             ⟨if r.hasFailures then failureMessage r.prNumber (formatDuration st now)
              else successMessage r.prNumber (formatDuration st now),
              if r.hasFailures then "failure" else "success"⟩] ∧
      (monitorFrom st (front ++ [(now, .ok r)])).countP isNotifyEvent = 1 ∧
      (monitorFrom st (front ++ [(now, .ok r)])).countP isPollEvent =
        front.length + 1 ∧
      (monitorFrom st (front ++ [(now, .ok r)])).countP isWaitEvent =
        front.length ∧
      (monitorFromGH st fuel (front ++ [(now, .ok r)])).countP
        isOutcomeNotification = 1 := by
  obtain ⟨c1, c2, c3, c4⟩ := pollWaitBlocks_counts front
  have hs := monitorFrom_shape st now front r hfront hdone
  have hg := monitorFromGH_shape st now fuel front r hfront hdone
  refine ⟨hs, ?_, ?_, ?_, ?_⟩
  · rw [hs]
    simp [List.countP_append, List.countP_cons, isNotifyEvent, c1]
  · rw [hs]
    simp [List.countP_append, List.countP_cons, isNotifyEvent, isPollEvent, c3]
  · rw [hs]
    simp [List.countP_append, List.countP_cons, isPollEvent, isWaitEvent, c4]
  · rw [hg]
    cases hf : r.hasFailures <;>
      simp [List.countP_append, List.countP_cons, hf, c2,
        continuous_no_outcome, isOutcomeNotification]

/-- A concrete in-progress snapshot: one check still pending. -/
def sampleInProgress : CheckResult :=
  { completed := false, hasFailures := false,
    checks := [⟨some "build", some "pending", none, none⟩], prNumber := "123",
    summary := { total := 1, pending := ["build"], completed := [],
                 failed := [] } }

/-- A concrete completed-success snapshot. -/
def sampleDoneSuccess : CheckResult :=
  { completed := true, hasFailures := false,
    checks := [⟨some "build", some "success", none, none⟩], prNumber := "123",
    summary := { total := 1, pending := [], completed := ["build"],
                 failed := [] } }

/-- Witness for C3: the spec's simulated run [not-done, not-done,
done-success] produces exactly one notification after three polls. -/
theorem notify_once_at_completion_witness :
    ([(20000, Except.ok sampleInProgress), (40000, Except.ok sampleInProgress)]
        : List (Nat × Except RunError CheckResult)).all pollInProgress = true ∧
      sampleDoneSuccess.completed = true ∧
      (monitorFrom 0
          (([(20000, .ok sampleInProgress), (40000, .ok sampleInProgress)]
              : List (Nat × Except RunError CheckResult)) ++
            [(60000, .ok sampleDoneSuccess)])).countP isNotifyEvent = 1 :=
  ⟨by decide, by decide,
   (notify_once_at_completion 0 60000 2
      [(20000, .ok sampleInProgress), (40000, .ok sampleInProgress)]
      sampleDoneSuccess (by decide) (by decide)).2.1⟩

end GhPrCheck
